import Mathlib

/-!
Verification of the Auto Form Fill orchestrator (`src/main.py`).

The Python source is shallowly embedded:
* Python `dict` values are insertion-ordered association lists
  `List (String × α)` (Python dicts have duplicate-free keys), with
  first-match lookup (`dlookup`), in-place-or-append assignment
  (`dinsert`, the semantics of `d[k] = v`) and `dupdate` (the semantics
  of `dict.update`, assigning each override pair in order).
* JSON values are the inductive `JValue`.
* Fallible Python code raising exceptions is embedded as `Except`.
* The filesystem and the external collaborators (matcher, extractor,
  filler, saver, the JSON parser) are parameters: the orchestrator is a
  pure function of their observable behaviour.
-/

set_option autoImplicit false

namespace AutoFormFill

universe u v

/-- First-match lookup in an association list: the value stored for key
`k`, the semantics of Python `d[k]` / `d.get(k)` on a dict. -/
def dlookup {α : Type u} (d : List (String × α)) (k : String) : Option α :=
  (d.find? (fun p => p.1 == k)).map (fun p => p.2)

/-- Whether key `k` is present: the semantics of Python `k in d`. -/
def hasKey {α : Type u} (d : List (String × α)) (k : String) : Bool :=
  d.any (fun p => p.1 == k)

/-- The semantics of Python `d[k] = v` on an insertion-ordered dict: if
`k` is already present its entry is overwritten in place, otherwise the
pair `(k, v)` is appended at the end. -/
def dinsert {α : Type u} : List (String × α) → String → α → List (String × α)
  | [], k, v => [(k, v)]
  | p :: rest, k, v => if p.1 == k then (k, v) :: rest else p :: dinsert rest k v

/-- The semantics of Python `d.update(o)`: assign each pair of `o`, in
order, into `d`. -/
def dupdate {α : Type u} (d o : List (String × α)) : List (String × α) :=
  o.foldl (fun acc p => dinsert acc p.1 p.2) d

/-- Embedding of `merge_data` (src/main.py:53-58):
`merged = extracted_data.copy()`, then `if override_data:
merged.update(override_data)`, then `return merged`.  The
`if override_data:` test is Python truthiness, so both `None` and an
empty dict skip the update; the `.copy()` means `extracted_data` itself
is never written to. -/
def merge_data {α : Type u} (extracted_data : List (String × α))
    (override_data : Option (List (String × α))) : List (String × α) :=
  match override_data with
  | none => extracted_data
  | some od => if od.isEmpty then extracted_data else dupdate extracted_data od

/-! ### Lookup lemmas for the dict model -/

theorem dlookup_nil {α : Type u} (k : String) :
    dlookup ([] : List (String × α)) k = none := rfl

theorem dlookup_cons {α : Type u} (p : String × α) (rest : List (String × α))
    (k : String) :
    dlookup (p :: rest) k = if p.1 == k then some p.2 else dlookup rest k := by
  by_cases h : p.1 == k <;> simp [dlookup, List.find?_cons, h]

theorem dlookup_eq_none_of_not_mem {α : Type u} {d : List (String × α)}
    {k : String} (h : k ∉ d.map Prod.fst) : dlookup d k = none := by
  induction d with
  | nil => rfl
  | cons p rest ih =>
    simp only [List.map_cons, List.mem_cons, not_or] at h
    have hne : (p.1 == k) = false := by
      simpa [beq_eq_false_iff_ne] using fun hc => h.1 hc.symm
    rw [dlookup_cons]
    simp only [hne, if_false]
    exact ih h.2

theorem dlookup_of_mem_nodup {α : Type u} {d : List (String × α)}
    {k : String} {v : α} (hmem : (k, v) ∈ d)
    (hnd : (d.map Prod.fst).Nodup) : dlookup d k = some v := by
  induction d with
  | nil => cases hmem
  | cons p rest ih =>
    simp only [List.map_cons, List.nodup_cons] at hnd
    rcases List.mem_cons.mp hmem with heq | htail
    · subst heq
      simp [dlookup_cons]
    · have hne : (p.1 == k) = false := by
        simp only [beq_eq_false_iff_ne, ne_eq]
        intro hc
        exact hnd.1 (hc ▸ List.mem_map_of_mem Prod.fst htail)
      rw [dlookup_cons]
      simp only [hne, if_false]
      exact ih htail hnd.2

theorem dlookup_dinsert {α : Type u} (d : List (String × α)) (k : String)
    (v : α) (k' : String) :
    dlookup (dinsert d k v) k' = if k' = k then some v else dlookup d k' := by
  induction d with
  | nil =>
    rcases eq_or_ne k' k with rfl | hne
    · simp [dinsert, dlookup_cons]
    · simp [dinsert, dlookup_cons, dlookup_nil, hne, Ne.symm hne]
  | cons p rest ih =>
    by_cases hp : p.1 == k
    · have hpk : p.1 = k := beq_iff_eq.mp hp
      rcases eq_or_ne k' k with rfl | hne
      · simp [dinsert, hp, dlookup_cons]
      · simp [dinsert, hp, dlookup_cons, hne, hpk, Ne.symm hne]
    · have hp' : (p.1 == k) = false := by simpa using hp
      by_cases hpk' : p.1 == k'
      · have hk'apart : ¬ k' = k := by
          intro hc
          exact hp (by simpa [hc] using hpk')
        simp [dinsert, hp', dlookup_cons, hpk', hk'apart]
      · have hpk'' : (p.1 == k') = false := by simpa using hpk'
        simp [dinsert, hp', dlookup_cons, hpk'', ih]

theorem dlookup_dupdate {α : Type u} (e o : List (String × α))
    (hnd : (o.map Prod.fst).Nodup) (k : String) :
    dlookup (dupdate e o) k =
      match dlookup o k with
      | some v => some v
      | none => dlookup e k := by
  induction o generalizing e with
  | nil => simp [dupdate, dlookup_nil]
  | cons p rest ih =>
    simp only [List.map_cons, List.nodup_cons] at hnd
    have step : dupdate e (p :: rest) = dupdate (dinsert e p.1 p.2) rest := rfl
    rw [step, ih _ hnd.2, dlookup_cons]
    by_cases hk : p.1 == k
    · have hk' : p.1 = k := beq_iff_eq.mp hk
      subst hk'
      have hnone : dlookup rest p.1 = none :=
        dlookup_eq_none_of_not_mem hnd.1
      simp [hnone, hk, dlookup_dinsert]
    · have hk' : ¬ k = p.1 := fun hc => hk (by simp [hc])
      have hkf : (p.1 == k) = false := by simpa using hk
      cases hrest : dlookup rest k <;> simp [hkf, hrest, dlookup_dinsert, hk']

theorem dinsert_eq_self {α : Type u} {d : List (String × α)} {k : String}
    {v : α} (h : dlookup d k = some v) : dinsert d k v = d := by
  induction d with
  | nil => simp [dlookup_nil] at h
  | cons p rest ih =>
    rw [dlookup_cons] at h
    by_cases hp : p.1 == k
    · have hpk : p.1 = k := beq_iff_eq.mp hp
      simp only [hp, if_true, Option.some.injEq] at h
      have hpe : p = (k, v) := by
        cases p
        simp only [Prod.mk.injEq]
        exact ⟨hpk, h⟩
      simp [dinsert, hp, hpe]
    · have hp' : (p.1 == k) = false := by simpa using hp
      simp only [hp', if_false] at h
      simp [dinsert, hp', ih h]

theorem dupdate_eq_self {α : Type u} {d o : List (String × α)}
    (h : ∀ p ∈ o, dlookup d p.1 = some p.2) : dupdate d o = d := by
  induction o with
  | nil => rfl
  | cons p rest ih =>
    have step : dupdate d (p :: rest) = dupdate (dinsert d p.1 p.2) rest := rfl
    rw [step, dinsert_eq_self (h p (List.mem_cons_self p rest))]
    exact ih fun q hq => h q (List.mem_cons_of_mem p hq)

/-! ### Claims about `merge_data` -/

/-- C1: for every ExtractedData mapping `E` and OverrideData mapping `O`
(a Python dict, so with duplicate-free keys), the merged mapping
`M = merge_data E (some O)` satisfies `M[k] = O[k]` whenever `k ∈ O`,
`M[k] = E[k]` whenever `k ∈ E` but `k ∉ O`, and `k` is absent from `M`
whenever it is absent from both. -/
theorem merge_data_lookup_law {α : Type u} (E O : List (String × α))
    (hnd : (O.map Prod.fst).Nodup) (k : String) :
    dlookup (merge_data E (some O)) k =
      match dlookup O k with
      | some v => some v
      | none => dlookup E k := by
  cases O with
  | nil => simp [merge_data, dlookup_nil]
  | cons p rest =>
    have : merge_data E (some (p :: rest)) = dupdate E (p :: rest) := by
      simp [merge_data]
    rw [this, dlookup_dupdate _ _ hnd]

/-- Witness for C1 at a concrete input: `E = [a↦1, b↦2]`,
`O = [b↦9, c↦3]`; the merged dict maps `b` to the override value. -/
theorem merge_data_lookup_law_witness :
    dlookup (merge_data [("a", "1"), ("b", "2")] (some [("b", "9"), ("c", "3")])) "b" =
      match dlookup [("b", "9"), ("c", "3")] "b" with
      | some v => some v
      | none => dlookup [("a", "1"), ("b", "2")] "b" :=
  merge_data_lookup_law [("a", "1"), ("b", "2")] [("b", "9"), ("c", "3")]
    (by simp) "b"

/-- C7: merging with an absent override mapping (`None`) returns a
mapping equal to `E`.  In the source, `merged = extracted_data.copy()`
is returned and `extracted_data` is never written to, so the caller's
`E` is unmutated; in this value-level embedding that reads as the
result being equal to `E`. -/
theorem merge_data_none {α : Type u} (E : List (String × α)) :
    merge_data E none = E := rfl

/-- C9: merging is idempotent in the override argument:
`merge_data (merge_data E O) O = merge_data E O` for every override
dict `O` (duplicate-free keys, as for any Python dict). -/
theorem merge_data_idempotent {α : Type u} (E : List (String × α))
    (O : Option (List (String × α)))
    (hnd : ∀ od ∈ O, (od.map Prod.fst).Nodup) :
    merge_data (merge_data E O) O = merge_data E O := by
  cases O with
  | none => rfl
  | some od =>
    have hnd' : (od.map Prod.fst).Nodup := hnd od rfl
    cases hef : od.isEmpty with
    | true => simp [merge_data, hef]
    | false =>
      simp only [merge_data, hef, Bool.false_eq_true, if_false]
      apply dupdate_eq_self
      intro p hp
      rw [dlookup_dupdate _ _ hnd']
      have : dlookup od p.1 = some p.2 := by
        have hpm : (p.1, p.2) ∈ od := by
          cases p
          exact hp
        exact dlookup_of_mem_nodup hpm hnd'
      rw [this]

/-- Witness for C9 at a concrete input. -/
theorem merge_data_idempotent_witness :
    merge_data (merge_data [("a", "1")] (some [("a", "7"), ("b", "2")]))
        (some [("a", "7"), ("b", "2")]) =
      merge_data [("a", "1")] (some [("a", "7"), ("b", "2")]) :=
  merge_data_idempotent [("a", "1")] (some [("a", "7"), ("b", "2")])
    (by intro od hod; cases hod; simp)

/-- C10: because `merge_data` tests the override argument for Python
truthiness (`if override_data:`) rather than for being `None`, an empty
override dict behaves exactly like an absent one: the result is `E`
either way. -/
theorem merge_data_empty_override {α : Type u} (E : List (String × α)) :
    merge_data E (some []) = E ∧ merge_data E (some []) = merge_data E none :=
  ⟨rfl, rfl⟩

/-! ### JSON values and the template validator -/

/-- JSON-like values, the payload of parsed template/override files and
of the matcher's output. -/
inductive JValue : Type where
  | null : JValue
  | bool : Bool → JValue
  | num : Int → JValue
  | str : String → JValue
  | arr : List JValue → JValue
  | obj : List (String × JValue) → JValue

/-- The distinct failure kinds of `validate_template`, one per distinct
`ValueError` message raised in src/main.py:39-50. -/
inductive TemplateError : Type where
  | MissingFieldsKey : TemplateError
  | FieldsNotList : TemplateError
  | FieldNotObject : Nat → TemplateError
  | FieldMissingName : Nat → TemplateError
  | FieldMissingBBox : Nat → TemplateError
deriving DecidableEq

/-- One iteration of the loop in src/main.py:44-50 at index `i`:
`isinstance(field, dict)` check, then `'name' in field`, then
`'pixel_bbox' in field`, first violation raised. -/
def validateField (i : Nat) (field : JValue) : Except TemplateError Unit :=
  match field with
  | .obj kvs =>
    if hasKey kvs "name" then
      if hasKey kvs "pixel_bbox" then .ok () else .error (.FieldMissingBBox i)
    else .error (.FieldMissingName i)
  | _ => .error (.FieldNotObject i)

/-- The `for i, field in enumerate(template['fields'])` loop, indices
starting at `n`. -/
def validateFields (n : Nat) : List JValue → Except TemplateError Unit
  | [] => .ok ()
  | field :: rest =>
    match validateField n field with
    | .ok _ => validateFields (n + 1) rest
    | .error e => .error e

/-- Embedding of `validate_template` (src/main.py:37-50): `'fields'`
key required, its value must be a list, then each element is checked in
order. -/
def validate_template (template : List (String × JValue)) :
    Except TemplateError Unit :=
  match dlookup template "fields" with
  | none => .error .MissingFieldsKey
  | some v =>
    match v with
    | .arr fields => validateFields 0 fields
    | _ => .error .FieldsNotList

/-- A field that passes all three per-field checks: it is an object
carrying both the `name` and `pixel_bbox` keys. -/
def fieldOk : JValue → Bool
  | .obj kvs => hasKey kvs "name" && hasKey kvs "pixel_bbox"
  | _ => false

theorem validateField_ok_of_fieldOk (i : Nat) {f : JValue}
    (h : fieldOk f = true) : validateField i f = .ok () := by
  cases f <;> simp [fieldOk] at h
  rename_i kvs
  simp [validateField, h.1, h.2]

theorem validateFields_ok_of_all {fs : List JValue}
    (h : ∀ f ∈ fs, fieldOk f = true) (n : Nat) :
    validateFields n fs = .ok () := by
  induction fs generalizing n with
  | nil => rfl
  | cons f rest ih =>
    have hf := validateField_ok_of_fieldOk n (h f (List.mem_cons_self f rest))
    simp [validateFields, hf]
    exact ih (fun g hg => h g (List.mem_cons_of_mem f hg)) (n + 1)

theorem validateFields_first_missing_name :
    ∀ (fs : List JValue) (n i : Nat) (hi : i < fs.length),
      (∀ j (hj : j < fs.length), j < i → fieldOk (fs.get ⟨j, hj⟩) = true) →
      ∀ kvs, fs.get ⟨i, hi⟩ = .obj kvs → hasKey kvs "name" = false →
      validateFields n fs = .error (.FieldMissingName (n + i)) := by
  intro fs
  induction fs with
  | nil =>
    intro n i hi
    exact absurd hi (Nat.not_lt_zero i)
  | cons f rest ih =>
    intro n i hi hprev kvs hobj hname
    cases i with
    | zero =>
      have hf : f = .obj kvs := hobj
      subst hf
      simp [validateFields, validateField, hname]
    | succ i' =>
      have h0 : fieldOk f = true := hprev 0 (Nat.succ_pos _) (Nat.succ_pos i')
      have hok := validateField_ok_of_fieldOk n h0
      have hi' : i' < rest.length := Nat.lt_of_succ_lt_succ hi
      have hprev' : ∀ j (hj : j < rest.length), j < i' →
          fieldOk (rest.get ⟨j, hj⟩) = true := by
        intro j hj hji
        exact hprev (j + 1) (Nat.succ_lt_succ hj) (Nat.succ_lt_succ hji)
      have hobj' : rest.get ⟨i', hi'⟩ = .obj kvs := hobj
      have := ih (n + 1) i' hi' hprev' kvs hobj' hname
      have harith : n + 1 + i' = n + (i' + 1) := by omega
      simp [validateFields, hok]
    
      rw [this, harith]

/-- C6: every template whose `fields` value is a list of objects each
carrying both the `name` and `pixel_bbox` keys is accepted by
`validate_template` without error. -/
theorem validate_template_accepts_valid (t : List (String × JValue))
    (fs : List JValue) (hf : dlookup t "fields" = some (.arr fs))
    (hall : ∀ f ∈ fs, fieldOk f = true) :
    validate_template t = .ok () := by
  simp only [validate_template, hf]
  exact validateFields_ok_of_all hall 0

/-- Witness for C6 at a concrete valid template. -/
theorem validate_template_accepts_valid_witness :
    validate_template
        [("fields", .arr [.obj [("name", .str "full_name"),
          ("pixel_bbox", .arr [.num 0, .num 0, .num 10, .num 10])]])] =
      .ok () :=
  validate_template_accepts_valid _ _ rfl (by
    intro f hf
    rw [List.mem_singleton] at hf
    subst hf
    rfl)

/-- C5: the validator checks its rules in the fixed source order and
fails with the error kind of the first violation: if every field before
index `i` passes all three per-field checks and the field at `i` is an
object lacking the `name` key, validation fails with
`FieldMissingName i` — even when that same field also lacks
`pixel_bbox`, exhibiting the name-before-bbox check order — and since
`validate_template` is a function, no other error kind is reported. -/
theorem validate_template_first_missing_name (t : List (String × JValue))
    (fs : List JValue) (hf : dlookup t "fields" = some (.arr fs))
    (i : Nat) (hi : i < fs.length)
    (hprev : ∀ j (hj : j < fs.length), j < i → fieldOk (fs.get ⟨j, hj⟩) = true)
    (kvs : List (String × JValue)) (hobj : fs.get ⟨i, hi⟩ = .obj kvs)
    (hname : hasKey kvs "name" = false) :
    validate_template t = .error (.FieldMissingName i) := by
  simp only [validate_template, hf]
  have := validateFields_first_missing_name fs 0 i hi hprev kvs hobj hname
  simpa using this

/-- Witness for C5: a template whose field 0 is fully valid and whose
field 1 is an object lacking `name` (and also lacking nothing else
checked earlier) fails with `FieldMissingName 1`. -/
theorem validate_template_first_missing_name_witness :
    validate_template
        [("fields", .arr [.obj [("name", .str "a"), ("pixel_bbox", .null)],
          .obj [("pixel_bbox", .null)]])] =
      .error (.FieldMissingName 1) :=
  validate_template_first_missing_name
    [("fields", .arr [.obj [("name", .str "a"), ("pixel_bbox", .null)],
      .obj [("pixel_bbox", .null)]])]
    [.obj [("name", .str "a"), ("pixel_bbox", .null)],
      .obj [("pixel_bbox", .null)]]
    rfl 1 (by decide)
    (by
      intro j hj h1
      have hj0 : j = 0 := by omega
      subst hj0
      rfl)
    [("pixel_bbox", .null)] rfl rfl

/-! ### Config Loader -/

/-- The two failure kinds of `load_json_file` (src/main.py:26-34):
`FileNotFoundError` re-raised with a path-bearing message, and the
`ValueError` raised on `json.JSONDecodeError`, carrying the underlying
syntax error text. -/
inductive LoadError : Type where
  | FileNotFound : String → LoadError
  | ParseError : String → LoadError
deriving DecidableEq

/-- Embedding of `load_json_file` (src/main.py:26-34).  The filesystem
is the function `readFile` (`none` = the path does not resolve to an
existing file, so `open` raises `FileNotFoundError`); `parse` is the
JSON parser (`json.load`), whose error value is the syntax-error text
of the `json.JSONDecodeError`. -/
def load_json_file {α : Type u} (readFile : String → Option String)
    (parse : String → Except String α) (file_path : String) :
    Except LoadError α :=
  match readFile file_path with
  | none => .error (.FileNotFound ("JSON file not found: " ++ file_path))
  | some content =>
    match parse content with
    | .ok v => .ok v
    | .error e =>
      .error (.ParseError ("Invalid JSON in " ++ file_path ++ ": " ++ e))

/-- C8: the Config Loader signals a `FileNotFound`-kind error exactly
when the path does not resolve to an existing file, a `ParseError`-kind
error (carrying the underlying syntax error) when the content is not
valid JSON, and the two kinds are distinguishable (no message makes
them equal). -/
theorem load_json_file_error_kinds {α : Type u}
    (readFile : String → Option String) (parse : String → Except String α)
    (file_path : String) :
    (readFile file_path = none →
      load_json_file readFile parse file_path =
        .error (.FileNotFound ("JSON file not found: " ++ file_path))) ∧
    (∀ content e, readFile file_path = some content →
      parse content = .error e →
      load_json_file readFile parse file_path =
        .error (.ParseError ("Invalid JSON in " ++ file_path ++ ": " ++ e))) ∧
    (∀ m₁ m₂, LoadError.FileNotFound m₁ ≠ LoadError.ParseError m₂) := by
  refine ⟨?_, ?_, ?_⟩
  · intro h
    simp [load_json_file, h]
  · intro content e hc hp
    simp [load_json_file, hc, hp]
  · intro m₁ m₂ hc
    cases hc

/-- Witness for C8: a one-path filesystem where `missing.json` does not
exist and `bad.json` holds unparsable text. -/
theorem load_json_file_error_kinds_witness :
    (load_json_file (fun p => if p = "bad.json" then some "not json" else none)
        (fun _ => (.error "Expecting value" : Except String Unit)) "missing.json" =
      .error (.FileNotFound "JSON file not found: missing.json")) ∧
    (load_json_file (fun p => if p = "bad.json" then some "not json" else none)
        (fun _ => (.error "Expecting value" : Except String Unit)) "bad.json" =
      .error (.ParseError "Invalid JSON in bad.json: Expecting value")) ∧
    (∀ m₁ m₂, LoadError.FileNotFound m₁ ≠ LoadError.ParseError m₂) :=
  ⟨(load_json_file_error_kinds
      (fun p => if p = "bad.json" then some "not json" else none)
      (fun _ => (.error "Expecting value" : Except String Unit))
      "missing.json").1 (by simp),
   ((load_json_file_error_kinds
      (fun p => if p = "bad.json" then some "not json" else none)
      (fun _ => (.error "Expecting value" : Except String Unit))
      "bad.json").2.1 "not json" "Expecting value" (by simp) rfl),
   (load_json_file_error_kinds
      (fun _ => (none : Option String))
      (fun _ => (.error "" : Except String Unit)) "").2.2⟩

/-! ### The orchestrator (`main`, src/main.py:61-209) -/

/-- Command-line arguments after `parser.parse_args()`
(src/main.py:68-93): `--image`, `--template`, `--output` required,
`--data` optional, `--debug` a flag. -/
structure Args where
  image : String
  template : String
  output : String
  data : Option String
  debug : Bool

/-- Observable behaviour of the environment and of the external
collaborators consumed by `main`: `os.path.exists`, the capability
probe `hasattr(match_template, '__call__')`, `match_template`, the
filesystem contents and JSON parser behind `load_json_file` (one parser
view for template files, one for override-data files), and
`extract_data_from_image`, `fill_form`, `save_filled_form`.  `φ` is the
opaque filled-form artifact. -/
structure Collab (φ : Type u) where
  pathExists : String → Bool
  matcherPresent : Bool
  match_template : String → Except String (List (String × JValue))
  readFile : String → Option String
  parseTemplateJson : String → Except String (List (String × JValue))
  parseDataJson : String → Except String (List (String × String))
  extract_data_from_image :
    String → List (String × JValue) → Except String (List (String × String))
  fill_form : String → List (String × JValue) → List (String × String) →
    Except String φ
  save_filled_form : φ → String → Except String Unit

/-- Why the template stage (step 2) failed: the explicit file failed to
load, or the candidate template failed validation.  A matching failure
is representable but — as proved below — never produced, because the
matcher error is caught and superseded by the fallback. -/
inductive TemplateFailCause : Type where
  | loadError : LoadError → TemplateFailCause
  | validationError : TemplateError → TemplateFailCause
  | matchingError : String → TemplateFailCause

/-- Outcome of step 2 of `main`. -/
inductive TemplateStageOutcome : Type where
  | success : List (String × JValue) → TemplateStageOutcome
  | failure : TemplateFailCause → TemplateStageOutcome

/-- The per-stage failure causes of the pipeline, one per
`sys.exit(1)` site of `main`. -/
inductive StageError : Type where
  | inputNotFound : String → StageError
  | templateLoadFailed : TemplateFailCause → StageError
  | extractionFailed : String → StageError
  | overrideLoadFailed : LoadError → StageError
  | fillFailed : String → StageError
  | saveFailed : String → StageError

/-- Observable result of one run of `main`: the process exit code, how
many times the Config Loader (`load_json_file`) was invoked, the
failure cause if any, and the merged dataset on success. -/
structure RunResult : Type where
  exitCode : Nat
  loaderCalls : Nat
  failure : Option StageError
  finalData : Option (List (String × String))

/-- The fallback branch of step 2 (src/main.py:126-132, also the
`else` at 128-130): load the template from the explicit `--template`
path via `load_json_file` (one Config Loader call), then validate.
The validation error is not caught here: it escapes to the outer
`except` of step 2. -/
def loadAndValidateExplicit {φ : Type u} (c : Collab φ) (a : Args) :
    TemplateStageOutcome × Nat :=
  match load_json_file c.readFile c.parseTemplateJson a.template with
  | .error e => (.failure (.loadError e), 1)
  | .ok t =>
    match validate_template t with
    | .ok _ => (.success t, 1)
    | .error e => (.failure (.validationError e), 1)

/-- Step 2 of `main` (src/main.py:117-137): if the matching capability
is present, try `match_template` first; any error it raises is caught
(warning only) and the explicit path is loaded instead.  In either
branch the candidate runs through `validate_template`; a validation
failure is not retried and becomes the stage's failure cause. -/
def loadTemplateStage {φ : Type u} (c : Collab φ) (a : Args) :
    TemplateStageOutcome × Nat :=
  if c.matcherPresent then
    match c.match_template a.image with
    | .ok t =>
      match validate_template t with
      | .ok _ => (.success t, 0)
      | .error e => (.failure (.validationError e), 0)
    | .error _ => loadAndValidateExplicit c a
  else loadAndValidateExplicit c a

/-- Steps 5 and 6 of `main` (src/main.py:174-209): fill the form, save
it, and emit the summary; `n` is the number of Config Loader calls
made so far. -/
def finishRun {φ : Type u} (c : Collab φ) (a : Args)
    (tmpl : List (String × JValue)) (final_data : List (String × String))
    (n : Nat) : RunResult :=
  match c.fill_form a.image tmpl final_data with
  | .error e => ⟨1, n, some (.fillFailed e), none⟩
  | .ok filled_image =>
    match c.save_filled_form filled_image a.output with
    | .error e => ⟨1, n, some (.saveFailed e), none⟩
    | .ok _ => ⟨0, n, none, some final_data⟩

/-- Embedding of `main` (src/main.py:61-209): validate the input
paths, acquire the template (step 2), extract, load-and-merge
overrides, fill, save.  Every failure exits with code 1 and a
stage-specific cause; `args.debug` is parsed but never read
afterwards — in particular `extract_data_from_image` is invoked with
`(args.image, template)` only (src/main.py:143). -/
def main {φ : Type u} (c : Collab φ) (a : Args) : RunResult :=
  if !(c.pathExists a.image) then ⟨1, 0, some (.inputNotFound "image"), none⟩
  else if !(c.pathExists a.template) then
    ⟨1, 0, some (.inputNotFound "template"), none⟩
  else if (match a.data with
      | some d => !(c.pathExists d)
      | none => false) then
    ⟨1, 0, some (.inputNotFound "data"), none⟩
  else
    match loadTemplateStage c a with
    | (.failure cause, n) => ⟨1, n, some (.templateLoadFailed cause), none⟩
    | (.success tmpl, n) =>
      match c.extract_data_from_image a.image tmpl with
      | .error e => ⟨1, n, some (.extractionFailed e), none⟩
      | .ok extracted_data =>
        match a.data with
        | some dpath =>
          match load_json_file c.readFile c.parseDataJson dpath with
          | .error e => ⟨1, n + 1, some (.overrideLoadFailed e), none⟩
          | .ok override_data =>
            finishRun c a tmpl (merge_data extracted_data (some override_data))
              (n + 1)
        | none => finishRun c a tmpl (merge_data extracted_data none) n

/-- C2: whenever the matcher returns a template without error, the
template stage makes zero Config Loader calls (the explicit template
path is never read), and any template it returns is exactly the
matcher's output. -/
theorem matcher_success_skips_loader {φ : Type u} (c : Collab φ) (a : Args)
    (t : List (String × JValue)) (hm : c.matcherPresent = true)
    (ht : c.match_template a.image = .ok t) :
    (loadTemplateStage c a).2 = 0 ∧
      ∀ t', (loadTemplateStage c a).1 = .success t' → t' = t := by
  simp only [loadTemplateStage, hm, if_true, ht]
  cases hv : validate_template t with
  | ok u =>
    refine ⟨rfl, ?_⟩
    intro t' h
    cases h
    rfl
  | error e =>
    refine ⟨rfl, ?_⟩
    intro t' h
    cases h

/-- Witness for C2 at a concrete collaborator assembly. -/
theorem matcher_success_skips_loader_witness :
    (loadTemplateStage
        (⟨fun _ => true, true,
          fun _ => .ok [("fields", .arr [])],
          fun _ => none, fun _ => .error "", fun _ => .error "",
          fun _ _ => .ok [], fun _ _ _ => .ok (), fun _ _ => .ok ()⟩ :
          Collab Unit)
        ⟨"form.png", "tmpl.json", "out.png", none, false⟩).2 = 0 ∧
      ∀ t', (loadTemplateStage
        (⟨fun _ => true, true,
          fun _ => .ok [("fields", .arr [])],
          fun _ => none, fun _ => .error "", fun _ => .error "",
          fun _ _ => .ok [], fun _ _ _ => .ok (), fun _ _ => .ok ()⟩ :
          Collab Unit)
        ⟨"form.png", "tmpl.json", "out.png", none, false⟩).1 = .success t' →
        t' = [("fields", .arr [])] :=
  matcher_success_skips_loader _ _ [("fields", .arr [])] rfl rfl

/-- C3: when the matcher raises any error, `main` falls back to loading
the template from the explicit path (exactly one Config Loader call in
the stage); if that fallback template then fails validation, the run
aborts with exit code 1 and the template-stage cause
`validationError` — which is not a matching error, and in particular
never the matcher's own error. -/
theorem matcher_failure_fallback_validation_fatal {φ : Type u}
    (c : Collab φ) (a : Args)
    (him : c.pathExists a.image = true)
    (htm : c.pathExists a.template = true)
    (hdp : ∀ d ∈ a.data, c.pathExists d = true)
    (hm : c.matcherPresent = true)
    (em : String) (hmf : c.match_template a.image = .error em)
    (t : List (String × JValue))
    (hl : load_json_file c.readFile c.parseTemplateJson a.template = .ok t)
    (e : TemplateError) (hv : validate_template t = .error e) :
    main c a = ⟨1, 1, some (.templateLoadFailed (.validationError e)), none⟩ ∧
      ∀ m, (main c a).failure ≠ some (.templateLoadFailed (.matchingError m)) := by
  have hstage : loadTemplateStage c a = (.failure (.validationError e), 1) := by
    simp [loadTemplateStage, hm, hmf, loadAndValidateExplicit, hl, hv]
  have hdata : (match a.data with
      | some d => !(c.pathExists d)
      | none => false) = false := by
    cases hd : a.data with
    | none => rfl
    | some d => simp [hdp d hd]
  have hmain :
      main c a = ⟨1, 1, some (.templateLoadFailed (.validationError e)), none⟩ := by
    rw [main]
    simp only [him, htm, hdata, Bool.not_true, Bool.false_eq_true, if_false,
      hstage]
  refine ⟨hmain, ?_⟩
  intro m hc
  rw [hmain] at hc
  simp at hc

/-- A concrete collaborator assembly in which the matcher always
fails and the explicit template file parses to a template whose
`fields` value is not a list. -/
def collabFallback : Collab Unit :=
  ⟨fun _ => true, true, fun _ => .error "no match",
    fun _ => some "raw", fun _ => .ok [("fields", .str "not-a-list")],
    fun _ => .error "", fun _ _ => .ok [], fun _ _ _ => .ok (),
    fun _ _ => .ok ()⟩

/-- A concrete argument vector with no `--data` path. -/
def argsBasic : Args :=
  ⟨"form.png", "tmpl.json", "out.png", none, false⟩

/-- Witness for C3: matcher fails, the explicit file parses to a
template whose `fields` value is not a list, the run ends with exit
code 1 and a validation cause. -/
theorem matcher_failure_fallback_validation_fatal_witness :
    main collabFallback argsBasic =
      ⟨1, 1, some (.templateLoadFailed (.validationError .FieldsNotList)),
        none⟩ ∧
      ∀ m, (main collabFallback argsBasic).failure ≠
        some (.templateLoadFailed (.matchingError m)) :=
  matcher_failure_fallback_validation_fatal collabFallback argsBasic rfl rfl
    (by intro d hd; cases hd) rfl "no match" rfl
    [("fields", .str "not-a-list")] rfl .FieldsNotList rfl

/-- C4: `main` never reads `args.debug`: its entire observable result
is unchanged when the flag is flipped.  In the source the flag is
parsed (src/main.py:87-91) but `args.debug` occurs nowhere else; in
particular `extract_data_from_image(args.image, template)`
(src/main.py:143) does not receive it, so the claim that the debug
setting is forwarded to the extraction collaborator fails on the code. -/
theorem main_independent_of_debug {φ : Type u} (c : Collab φ)
    (a : Args) :
    main c { a with debug := true } = main c { a with debug := false } := by
  cases a
  rfl
